import Mathlib

/-!
Shallow embedding of the catalog data model of `catalog/models.py`
(library_site): the five entities Genre, Language, Author, Book and
BookInstance, the declared field constraints (max lengths, required
fields, `unique=True` on `isbn`), the declared referential-delete
behaviours (`on_delete=SET_NULL` on `Book.author`, `Book.language`,
`BookInstance.borrower`; `on_delete=RESTRICT` on `BookInstance.book`),
the derived helpers `display_genre`, `is_overdue` and the `__str__`
representations, the `Meta.ordering` declarations, and the
`UUIDField(default=uuid.uuid4)` identifier generation.

Machine-level details are embedded as follows: dates are ordinal day
numbers (only comparison is used by the source), UUIDs are elements of
`Fin (2 ^ 128)`, and the store is explicit state: lists of records in
insertion order plus an auto-increment counter and a UUID supply.
Writes are validated as the declared constraints demand (a failed write
returns `none`).
-/

namespace Catalog

/-- Dates are modelled as ordinal day numbers; the source only compares
dates with `>`. -/
abbrev Date := Nat

/-- The 128-bit value space of `uuid.uuid4` identifiers. -/
abbrev UUID := Fin (2 ^ 128)

instance : NeZero (2 ^ 128) := ⟨(Nat.two_pow_pos 128).ne'⟩

/-- Record of the `Genre` model: `name = CharField(max_length=200)`. -/
structure Genre where
  id : Nat
  name : String
  deriving DecidableEq

/-- Record of the `Language` model: `name = CharField(max_length=200)`. -/
structure Language where
  id : Nat
  name : String
  deriving DecidableEq

/-- Record of the `Author` model: `first_name`, `last_name`
(`CharField(max_length=100)`), optional `date_of_birth` and
`date_of_death`. -/
structure Author where
  id : Nat
  first_name : String
  last_name : String
  date_of_birth : Option Date
  date_of_death : Option Date
  deriving DecidableEq

/-- Record of the `Book` model: `title` (max 200), nullable `author`
foreign key, `summary` (`TextField(max_length=1000)`), `isbn`
(`CharField(max_length=13, unique=True)`), many-to-many `genre` (kept in
relation insertion order), nullable `language` foreign key. -/
structure Book where
  id : Nat
  title : String
  author : Option Nat
  summary : String
  isbn : String
  genre : List Nat
  language : Option Nat
  deriving DecidableEq

/-- Record of the `BookInstance` model: UUID primary key, nullable
`book` foreign key (`on_delete=RESTRICT`), `imprint` (max 200), optional
`due_back`, nullable `borrower` (`on_delete=SET_NULL`), and the
single-character `status` field. -/
structure BookInstance where
  id : UUID
  book : Option Nat
  imprint : String
  due_back : Option Date
  borrower : Option Nat
  status : String
  deriving DecidableEq

/-- The `LOAN_STATUS` choices tuple of `BookInstance.status`. -/
def LOAN_STATUS : List (String × String) :=
  [("m", "Maintenance"), ("o", "On loan"), ("a", "Available"), ("r", "Reserved")]

/-- The declared default of the `status` field: `default='d'`. -/
def statusDefault : String := "d"

/-- Validation of a `status` value: one of the `LOAN_STATUS` codes, or
blank (the field declares `blank=True`). -/
def statusOk (st : String) : Bool :=
  (LOAN_STATUS.map Prod.fst).contains st || st == ""

/-- Property `BookInstance.is_overdue`:
`bool(self.due_back and date.today() > self.due_back)`. A `date` object
is always truthy, so the conjunct `self.due_back` only tests presence. -/
def is_overdue (today : Date) (i : BookInstance) : Bool :=
  match i.due_back with
  | none => false
  | some d => decide (d < today)

/-- The catalog store: all persisted records in insertion order, an
auto-increment primary-key counter shared by the integer-keyed tables,
and the supply of fresh `uuid.uuid4` values. -/
structure Store where
  nextId : Nat
  uuidSupply : UUID
  genres : List Genre
  languages : List Language
  authors : List Author
  books : List Book
  instances : List BookInstance
  deriving DecidableEq

/-- The empty store. -/
def emptyStore : Store :=
  { nextId := 1, uuidSupply := ⟨0, Nat.two_pow_pos 128⟩,
    genres := [], languages := [], authors := [], books := [], instances := [] }

/-- Resolution of a `Genre` foreign key. -/
def lookupGenre (s : Store) (gid : Nat) : Option Genre :=
  s.genres.find? fun g => g.id == gid

/-- Resolution of a `Language` foreign key. -/
def lookupLanguage (s : Store) (lid : Nat) : Option Language :=
  s.languages.find? fun l => l.id == lid

/-- Resolution of an `Author` foreign key. -/
def lookupAuthor (s : Store) (aid : Nat) : Option Author :=
  s.authors.find? fun a => a.id == aid

/-- Resolution of a `Book` foreign key. -/
def lookupBook (s : Store) (bid : Nat) : Option Book :=
  s.books.find? fun b => b.id == bid

/-- Method `Genre.__str__`: `return self.name`. -/
def Genre.str (g : Genre) : String := g.name

/-- Method `Language.__str__`: `return self.name`. -/
def Language.str (l : Language) : String := l.name

/-- Method `Author.__str__`: `'{0} ({1})'.format(self.last_name, self.first_name)`. -/
def Author.str (a : Author) : String :=
  a.last_name ++ " (" ++ a.first_name ++ ")"

/-- Method `Book.__str__`: `return self.title`. -/
def Book.str (b : Book) : String := b.title

/-- Method `BookInstance.__str__`:
`'{0} ({1})'.format(self.id, self.book.title)`. Dereferencing
`self.book.title` fails when the nullable `book` reference is absent (or
does not resolve), so the result is partial. -/
def BookInstance.str (s : Store) (i : BookInstance) : Option String :=
  match i.book.bind (lookupBook s) with
  | none => none
  | some b => some (toString i.id.val ++ " (" ++ b.title ++ ")")

/-- Method `Book.display_genre`:
`', '.join([genre.name for genre in self.genre.all()[:3]])` — the first
three resolved genres of the relation, in relation order, their names
joined by comma-space. -/
def display_genre (s : Store) (b : Book) : String :=
  String.intercalate (", ") (((b.genre.filterMap (lookupGenre s)).take 3).map Genre.name)

/-- Arguments of a Book create/update (the primary key is assigned by
the store on create). -/
structure BookArgs where
  title : String
  author : Option Nat
  summary : String
  isbn : String
  genre : List Nat
  language : Option Nat
  deriving DecidableEq

/-- Assembly of a `Book` record from write arguments and a primary key. -/
def BookArgs.toBook (a : BookArgs) (bid : Nat) : Book :=
  { id := bid, title := a.title, author := a.author, summary := a.summary,
    isbn := a.isbn, genre := a.genre, language := a.language }

/-- Arguments of a BookInstance create (`status = none` means the field
default applies, id is supplied separately or generated). -/
structure InstanceArgs where
  book : Option Nat
  imprint : String
  due_back : Option Date
  borrower : Option Nat
  status : Option String
  deriving DecidableEq

/-- Assembly of a `BookInstance` record: an absent `status` argument
receives the declared field default `'d'`. -/
def InstanceArgs.build (a : InstanceArgs) (uid : UUID) : BookInstance :=
  { id := uid, book := a.book, imprint := a.imprint, due_back := a.due_back,
    borrower := a.borrower, status := a.status.getD statusDefault }

/-- Field validation of a Book write: required non-blank `title`,
`summary`, `isbn`; the declared max lengths 200 / 1000 / 13; foreign
keys and the many-to-many genre references must resolve. -/
def bookFieldsOk (s : Store) (b : Book) : Bool :=
  b.title != "" && decide (b.title.length ≤ 200) &&
  b.summary != "" && decide (b.summary.length ≤ 1000) &&
  b.isbn != "" && decide (b.isbn.length ≤ 13) &&
  (b.author.all fun aid => (lookupAuthor s aid).isSome) &&
  (b.language.all fun lid => (lookupLanguage s lid).isSome) &&
  (b.genre.all fun gid => (lookupGenre s gid).isSome)

/-- Field validation of a BookInstance write: required non-blank
`imprint` of max length 200, `status` among the choices or blank, a
present `book` reference must resolve. -/
def instanceFieldsOk (s : Store) (i : BookInstance) : Bool :=
  i.imprint != "" && decide (i.imprint.length ≤ 200) &&
  statusOk i.status &&
  (i.book.all fun bid => (lookupBook s bid).isSome)

/-- Models `uuid.uuid4` used as the `id` default: a draw from the supply
of fresh 128-bit values, idealised (per the uniqueness the scheme is
chosen for) as a supply that never repeats a value while it advances. -/
def uuid4 (g : UUID) : UUID × UUID := (g, g + 1)

/-- The write operations the store supports (the generic create/delete
interface the persistence framework derives from the model
declarations). -/
inductive Op where
  | createGenre (name : String)
  | createLanguage (name : String)
  | createAuthor (first last : String) (birth death : Option Date)
  | createBook (a : BookArgs)
  | updateBook (bid : Nat) (a : BookArgs)
  | createInstance (uid : Option UUID) (a : InstanceArgs)
  | deleteGenre (gid : Nat)
  | deleteLanguage (lid : Nat)
  | deleteAuthor (aid : Nat)
  | deleteBook (bid : Nat)
  | deleteInstance (uid : UUID)
  | deleteUser (uid : Nat)
  deriving DecidableEq

/-- One validated write against the store. Creation appends in insertion
order; `unique=True` on `isbn` rejects duplicates; `on_delete=SET_NULL`
clears dangling `author` / `language` / `borrower` references;
`on_delete=RESTRICT` rejects deletion of a referenced Book; deleting a
Genre removes it from the many-to-many relation rows. A violated
constraint yields `none`. -/
def applyOp (s : Store) : Op → Option Store
  | .createGenre n =>
      if n != "" && decide (n.length ≤ 200) then
        some { s with nextId := s.nextId + 1, genres := s.genres ++ [⟨s.nextId, n⟩] }
      else none
  | .createLanguage n =>
      if n != "" && decide (n.length ≤ 200) then
        some { s with nextId := s.nextId + 1, languages := s.languages ++ [⟨s.nextId, n⟩] }
      else none
  | .createAuthor f l birth death =>
      if f != "" && decide (f.length ≤ 100) && l != "" && decide (l.length ≤ 100) then
        some { s with nextId := s.nextId + 1,
                      authors := s.authors ++ [⟨s.nextId, f, l, birth, death⟩] }
      else none
  | .createBook a =>
      let b := a.toBook s.nextId
      if bookFieldsOk s b && (s.books.all fun b2 => b2.isbn != b.isbn) then
        some { s with nextId := s.nextId + 1, books := s.books ++ [b] }
      else none
  | .updateBook bid a =>
      let b := a.toBook bid
      if (lookupBook s bid).isSome && bookFieldsOk s b &&
          (s.books.all fun b2 => b2.id == bid || b2.isbn != b.isbn) then
        some { s with books := s.books.map fun b2 => if b2.id == bid then b else b2 }
      else none
  | .createInstance uid a =>
      let i := a.build (uid.getD s.uuidSupply)
      if instanceFieldsOk s i && (s.instances.all fun j => j.id != i.id) then
        some { s with
                uuidSupply := if uid.isNone then (uuid4 s.uuidSupply).2 else s.uuidSupply,
                instances := s.instances ++ [i] }
      else none
  | .deleteGenre gid =>
      some { s with genres := s.genres.filter fun g => g.id != gid,
                    books := s.books.map fun b =>
                      { b with genre := b.genre.filter fun g => g != gid } }
  | .deleteLanguage lid =>
      some { s with languages := s.languages.filter fun l => l.id != lid,
                    books := s.books.map fun b =>
                      if b.language == some lid then { b with language := none } else b }
  | .deleteAuthor aid =>
      some { s with authors := s.authors.filter fun a => a.id != aid,
                    books := s.books.map fun b =>
                      if b.author == some aid then { b with author := none } else b }
  | .deleteBook bid =>
      if s.instances.any fun i => i.book == some bid then none
      else some { s with books := s.books.filter fun b => b.id != bid }
  | .deleteInstance uid =>
      some { s with instances := s.instances.filter fun i => i.id != uid }
  | .deleteUser uid =>
      some { s with instances := s.instances.map fun i =>
               if i.borrower == some uid then { i with borrower := none } else i }

/-- A sequence of writes, each of which must succeed. -/
def runOps (s : Store) : List Op → Option Store
  | [] => some s
  | op :: ops => (applyOp s op).bind fun s2 => runOps s2 ops

/-- A write attempt whose failure leaves the store unchanged. -/
def tryOp (s : Store) (op : Op) : Store := (applyOp s op).getD s

/-- A store reachable from the empty store by successful writes. -/
def Reachable (s : Store) : Prop := ∃ ops : List Op, runOps emptyStore ops = some s

/-- The store invariant maintained by every successful write: primary
keys of Books are below the counter and pairwise distinct, ISBNs are
pairwise distinct, non-blank and of length at most 13, summaries are of
length at most 1000, and every stored status passed the choice check. -/
def Inv (s : Store) : Prop :=
  (∀ b ∈ s.books, b.id < s.nextId) ∧
  s.books.Pairwise (fun b1 b2 => b1.id ≠ b2.id) ∧
  s.books.Pairwise (fun b1 b2 => b1.isbn ≠ b2.isbn) ∧
  (∀ b ∈ s.books, b.isbn ≠ "" ∧ b.isbn.length ≤ 13 ∧ b.summary.length ≤ 1000) ∧
  (∀ i ∈ s.instances, statusOk i.status = true)

/-- The book-list part of the invariant is preserved by mapping any
function that keeps `id`, `isbn` and `summary` of each record. -/
lemma booksInv_map {l : List Book} {n : Nat} (f : Book → Book)
    (hid : ∀ b, (f b).id = b.id) (hisbn : ∀ b, (f b).isbn = b.isbn)
    (hsum : ∀ b, (f b).summary = b.summary)
    (h1 : ∀ b ∈ l, b.id < n) (h2 : l.Pairwise fun b1 b2 => b1.id ≠ b2.id)
    (h3 : l.Pairwise fun b1 b2 => b1.isbn ≠ b2.isbn)
    (h4 : ∀ b ∈ l, b.isbn ≠ "" ∧ b.isbn.length ≤ 13 ∧ b.summary.length ≤ 1000) :
    (∀ b ∈ l.map f, b.id < n) ∧
    (l.map f).Pairwise (fun b1 b2 => b1.id ≠ b2.id) ∧
    (l.map f).Pairwise (fun b1 b2 => b1.isbn ≠ b2.isbn) ∧
    (∀ b ∈ l.map f, b.isbn ≠ "" ∧ b.isbn.length ≤ 13 ∧ b.summary.length ≤ 1000) := by
  refine ⟨?_, ?_, ?_, ?_⟩
  · intro b hb
    rcases List.mem_map.1 hb with ⟨c, hc, rfl⟩
    rw [hid]; exact h1 c hc
  · exact List.pairwise_map.2 (h2.imp fun {b1 b2} hab => by rw [hid, hid]; exact hab)
  · exact List.pairwise_map.2 (h3.imp fun {b1 b2} hab => by rw [hisbn, hisbn]; exact hab)
  · intro b hb
    rcases List.mem_map.1 hb with ⟨c, hc, rfl⟩
    rw [hisbn, hsum]; exact h4 c hc

/-- Decoding of a passed `bookFieldsOk` check into the propositional
facts the invariant needs. -/
lemma bookFieldsOk_facts {s : Store} {b : Book} (h : bookFieldsOk s b = true) :
    b.isbn ≠ "" ∧ b.isbn.length ≤ 13 ∧ b.summary.length ≤ 1000 := by
  simp only [bookFieldsOk, Bool.and_eq_true, bne_iff_ne, ne_eq, decide_eq_true_eq] at h
  obtain ⟨⟨⟨⟨⟨⟨⟨⟨_, _⟩, _⟩, hsum⟩, hisbn⟩, hlen⟩, _⟩, _⟩, _⟩ := h
  exact ⟨hisbn, hlen, hsum⟩

/-- Every successful write preserves the store invariant. -/
lemma inv_applyOp {s s' : Store} {op : Op} (h : Inv s) (hap : applyOp s op = some s') :
    Inv s' := by
  obtain ⟨h1, h2, h3, h4, h5⟩ := h
  cases op with
  | createGenre n =>
      simp only [applyOp] at hap
      split at hap
      · obtain rfl : _ = s' := Option.some.inj hap
        exact ⟨fun b hb => Nat.lt_succ_of_lt (h1 b hb), h2, h3, h4, h5⟩
      · exact absurd hap (by simp)
  | createLanguage n =>
      simp only [applyOp] at hap
      split at hap
      · obtain rfl : _ = s' := Option.some.inj hap
        exact ⟨fun b hb => Nat.lt_succ_of_lt (h1 b hb), h2, h3, h4, h5⟩
      · exact absurd hap (by simp)
  | createAuthor f l birth death =>
      simp only [applyOp] at hap
      split at hap
      · obtain rfl : _ = s' := Option.some.inj hap
        exact ⟨fun b hb => Nat.lt_succ_of_lt (h1 b hb), h2, h3, h4, h5⟩
      · exact absurd hap (by simp)
  | createBook a =>
      simp only [applyOp] at hap
      split at hap
      case isTrue hc =>
        obtain rfl : _ = s' := Option.some.inj hap
        rw [Bool.and_eq_true] at hc
        obtain ⟨hfo, hall⟩ := hc
        simp only [List.all_eq_true, bne_iff_ne, ne_eq] at hall
        refine ⟨?_, ?_, ?_, ?_, h5⟩
        · intro b hb
          rcases List.mem_append.1 hb with hb | hb
          · exact Nat.lt_succ_of_lt (h1 b hb)
          · rcases List.mem_singleton.1 hb with rfl
            exact Nat.lt_succ_self _
        · refine List.pairwise_append.2 ⟨h2, List.pairwise_singleton _ _, ?_⟩
          intro b hb c hc
          rcases List.mem_singleton.1 hc with rfl
          exact Nat.ne_of_lt (h1 b hb)
        · refine List.pairwise_append.2 ⟨h3, List.pairwise_singleton _ _, ?_⟩
          intro b hb c hc
          rcases List.mem_singleton.1 hc with rfl
          exact hall b hb
        · intro b hb
          rcases List.mem_append.1 hb with hb | hb
          · exact h4 b hb
          · rcases List.mem_singleton.1 hb with rfl
            exact bookFieldsOk_facts hfo
      case isFalse => exact absurd hap (by simp)
  | updateBook bid a =>
      simp only [applyOp] at hap
      split at hap
      case isTrue hc =>
        obtain rfl : _ = s' := Option.some.inj hap
        rw [Bool.and_eq_true, Bool.and_eq_true] at hc
        obtain ⟨⟨_, hfo⟩, hall⟩ := hc
        simp only [List.all_eq_true, Bool.or_eq_true, beq_iff_eq, bne_iff_ne, ne_eq] at hall
        have hid : ∀ b2 : Book,
            (if b2.id == bid then a.toBook bid else b2).id = b2.id := by
          intro b2
          split
          case isTrue hh => simpa [BookArgs.toBook] using (beq_iff_eq.1 hh).symm
          case isFalse => rfl
        refine ⟨?_, ?_, ?_, ?_, h5⟩
        · intro b hb
          rcases List.mem_map.1 hb with ⟨c, hc2, rfl⟩
          rw [hid]; exact h1 c hc2
        · exact List.pairwise_map.2 ((h2.imp fun {b1 b2} hab => by
            rw [hid, hid]; exact hab))
        · refine List.pairwise_map.2 ?_
          have hmem := List.Pairwise.and_mem.1 (h2.and h3)
          refine hmem.imp ?_
          rintro b1 b2 ⟨hm1, hm2, hne_id, hne_isbn⟩
          by_cases e1 : b1.id = bid
          · have e2 : ¬ b2.id = bid := fun e => (e1 ▸ hne_id) (e.symm ▸ rfl)
            rcases hall b2 hm2 with he | he
            · exact absurd he e2
            · simp only [e1, e2, beq_iff_eq, if_true, if_false, if_pos, if_neg]
              intro hq
              exact he (by simpa [BookArgs.toBook] using hq.symm)
          · by_cases e2 : b2.id = bid
            · rcases hall b1 hm1 with he | he
              · exact absurd he e1
              · simp only [e1, e2, beq_iff_eq, if_true, if_false, if_pos, if_neg]
                intro hq
                exact he (by simpa [BookArgs.toBook] using hq)
            · simpa [e1, e2] using hne_isbn
        · intro b hb
          rcases List.mem_map.1 hb with ⟨c, hc2, rfl⟩
          split
          · exact bookFieldsOk_facts hfo
          · exact h4 c hc2
      case isFalse => exact absurd hap (by simp)
  | createInstance uid a =>
      simp only [applyOp] at hap
      split at hap
      case isTrue hc =>
        obtain rfl : _ = s' := Option.some.inj hap
        rw [Bool.and_eq_true] at hc
        obtain ⟨hio, _⟩ := hc
        refine ⟨h1, h2, h3, h4, ?_⟩
        intro i hi
        rcases List.mem_append.1 hi with hi | hi
        · exact h5 i hi
        · rcases List.mem_singleton.1 hi with rfl
          simp only [instanceFieldsOk, Bool.and_eq_true] at hio
          exact hio.1.2
      case isFalse => exact absurd hap (by simp)
  | deleteGenre gid =>
      obtain rfl : _ = s' := Option.some.inj hap
      have := booksInv_map (n := s.nextId)
        (fun b => { b with genre := b.genre.filter fun g => g != gid })
        (fun _ => rfl) (fun _ => rfl) (fun _ => rfl) h1 h2 h3 h4
      exact ⟨this.1, this.2.1, this.2.2.1, this.2.2.2, h5⟩
  | deleteLanguage lid =>
      obtain rfl : _ = s' := Option.some.inj hap
      have := booksInv_map (n := s.nextId)
        (fun b => if b.language == some lid then { b with language := none } else b)
        (fun b => by dsimp only; split <;> rfl)
        (fun b => by dsimp only; split <;> rfl)
        (fun b => by dsimp only; split <;> rfl) h1 h2 h3 h4
      exact ⟨this.1, this.2.1, this.2.2.1, this.2.2.2, h5⟩
  | deleteAuthor aid =>
      obtain rfl : _ = s' := Option.some.inj hap
      have := booksInv_map (n := s.nextId)
        (fun b => if b.author == some aid then { b with author := none } else b)
        (fun b => by dsimp only; split <;> rfl)
        (fun b => by dsimp only; split <;> rfl)
        (fun b => by dsimp only; split <;> rfl) h1 h2 h3 h4
      exact ⟨this.1, this.2.1, this.2.2.1, this.2.2.2, h5⟩
  | deleteBook bid =>
      simp only [applyOp] at hap
      split at hap
      · exact absurd hap (by simp)
      · obtain rfl : _ = s' := Option.some.inj hap
        refine ⟨?_, h2.filter _, h3.filter _, ?_, h5⟩
        · intro b hb; exact h1 b (List.mem_of_mem_filter hb)
        · intro b hb; exact h4 b (List.mem_of_mem_filter hb)
  | deleteInstance uid =>
      obtain rfl : _ = s' := Option.some.inj hap
      exact ⟨h1, h2, h3, h4, fun i hi => h5 i (List.mem_of_mem_filter hi)⟩
  | deleteUser uid =>
      obtain rfl : _ = s' := Option.some.inj hap
      refine ⟨h1, h2, h3, h4, ?_⟩
      intro i hi
      rcases List.mem_map.1 hi with ⟨j, hj, rfl⟩
      have : (if j.borrower == some uid then { j with borrower := none } else j).status
          = j.status := by dsimp only; split <;> rfl
      rw [this]; exact h5 j hj

/-- The invariant holds along any successful run of writes. -/
lemma inv_runOps : ∀ (ops : List Op) (s s' : Store),
    Inv s → runOps s ops = some s' → Inv s'
  | [], s, s', h, hr => by
      simp only [runOps] at hr
      exact (Option.some.inj hr) ▸ h
  | op :: ops, s, s', h, hr => by
      simp only [runOps, Option.bind_eq_some] at hr
      rcases hr with ⟨s2, hap, hrun⟩
      exact inv_runOps ops s2 s' (inv_applyOp h hap) hrun

/-- The empty store satisfies the invariant. -/
lemma inv_emptyStore : Inv emptyStore := by
  refine ⟨?_, ?_, ?_, ?_, ?_⟩ <;> simp [emptyStore, Inv]

/-- Every reachable store satisfies the invariant. -/
lemma inv_reachable {s : Store} (h : Reachable s) : Inv s := by
  rcases h with ⟨ops, hr⟩
  exact inv_runOps ops emptyStore s inv_emptyStore hr

/-- Strict lexicographic comparison of strings by their character
data. -/
def strLtB (s1 s2 : String) : Bool := decide (s1.data < s2.data)

/-- Lexicographic less-or-equal on strings. -/
def strLeB (s1 s2 : String) : Bool := !strLtB s2 s1

lemma strLtB_iff (s1 s2 : String) : strLtB s1 s2 = true ↔ s1 < s2 := by
  rw [strLtB, decide_eq_true_eq, String.lt_iff_toList_lt]
  exact Iff.rfl

lemma strLeB_iff (s1 s2 : String) : strLeB s1 s2 = true ↔ s1 ≤ s2 := by
  rw [strLeB, Bool.not_eq_true', Bool.eq_false_iff, ne_eq, strLtB_iff]
  exact not_lt

/-- Ascending comparison of optional sort keys; an absent value sorts
first (one fixed convention for the store's null ordering). -/
def optLeB : Option Nat → Option Nat → Bool
  | none, _ => true
  | some _, none => false
  | some m, some n => decide (m ≤ n)

/-- The `Book.Meta` declaration `ordering = ['title', 'author']`:
ascending by title, ties broken by the raw author key. -/
def bookLeB (b1 b2 : Book) : Bool :=
  strLtB b1.title b2.title || (b1.title == b2.title && optLeB b1.author b2.author)

/-- The `Author.Meta` declaration `ordering = ['last_name', 'first_name']`. -/
def authorLeB (a1 a2 : Author) : Bool :=
  strLtB a1.last_name a2.last_name ||
  (a1.last_name == a2.last_name && strLeB a1.first_name a2.first_name)

/-- The `BookInstance.Meta` declaration `ordering = ["due_back"]`. -/
def instLeB (i1 i2 : BookInstance) : Bool := optLeB i1.due_back i2.due_back

/-- A listing query over Books: the stored records in the declared
default order. -/
def listBooks (s : Store) : List Book :=
  List.insertionSort (fun b1 b2 => bookLeB b1 b2 = true) s.books

/-- A listing query over Authors: the stored records in the declared
default order. -/
def listAuthors (s : Store) : List Author :=
  List.insertionSort (fun a1 a2 => authorLeB a1 a2 = true) s.authors

/-- A listing query over BookInstances: the stored records in the
declared default order. -/
def listInstances (s : Store) : List BookInstance :=
  List.insertionSort (fun i1 i2 => instLeB i1 i2 = true) s.instances

lemma optLeB_total (o1 o2 : Option Nat) : optLeB o1 o2 = true ∨ optLeB o2 o1 = true := by
  cases o1 <;> cases o2 <;> simp [optLeB]
  omega

lemma optLeB_trans {o1 o2 o3 : Option Nat} (h12 : optLeB o1 o2 = true)
    (h23 : optLeB o2 o3 = true) : optLeB o1 o3 = true := by
  cases o1 <;> cases o2 <;> cases o3 <;> simp_all [optLeB]
  omega

lemma bookLeB_total (b1 b2 : Book) : bookLeB b1 b2 = true ∨ bookLeB b2 b1 = true := by
  simp only [bookLeB, Bool.or_eq_true, Bool.and_eq_true, strLtB_iff, beq_iff_eq]
  rcases lt_trichotomy b1.title b2.title with h | h | h
  · exact Or.inl (Or.inl h)
  · rcases optLeB_total b1.author b2.author with ho | ho
    · exact Or.inl (Or.inr ⟨h, ho⟩)
    · exact Or.inr (Or.inr ⟨h.symm, ho⟩)
  · exact Or.inr (Or.inl h)

lemma bookLeB_trans {b1 b2 b3 : Book} (h12 : bookLeB b1 b2 = true)
    (h23 : bookLeB b2 b3 = true) : bookLeB b1 b3 = true := by
  simp only [bookLeB, Bool.or_eq_true, Bool.and_eq_true, strLtB_iff,
    beq_iff_eq] at h12 h23 ⊢
  rcases h12 with h12 | ⟨e12, o12⟩
  · rcases h23 with h23 | ⟨e23, _⟩
    · exact Or.inl (lt_trans h12 h23)
    · exact Or.inl (e23 ▸ h12)
  · rcases h23 with h23 | ⟨e23, o23⟩
    · exact Or.inl (e12 ▸ h23)
    · exact Or.inr ⟨e12.trans e23, optLeB_trans o12 o23⟩

lemma authorLeB_total (a1 a2 : Author) : authorLeB a1 a2 = true ∨ authorLeB a2 a1 = true := by
  simp only [authorLeB, Bool.or_eq_true, Bool.and_eq_true, strLtB_iff, strLeB_iff, beq_iff_eq]
  rcases lt_trichotomy a1.last_name a2.last_name with h | h | h
  · exact Or.inl (Or.inl h)
  · rcases le_total a1.first_name a2.first_name with ho | ho
    · exact Or.inl (Or.inr ⟨h, ho⟩)
    · exact Or.inr (Or.inr ⟨h.symm, ho⟩)
  · exact Or.inr (Or.inl h)

lemma authorLeB_trans {a1 a2 a3 : Author} (h12 : authorLeB a1 a2 = true)
    (h23 : authorLeB a2 a3 = true) : authorLeB a1 a3 = true := by
  simp only [authorLeB, Bool.or_eq_true, Bool.and_eq_true, strLtB_iff, strLeB_iff,
    beq_iff_eq] at h12 h23 ⊢
  rcases h12 with h12 | ⟨e12, o12⟩
  · rcases h23 with h23 | ⟨e23, _⟩
    · exact Or.inl (lt_trans h12 h23)
    · exact Or.inl (e23 ▸ h12)
  · rcases h23 with h23 | ⟨e23, o23⟩
    · exact Or.inl (e12 ▸ h23)
    · exact Or.inr ⟨e12.trans e23, le_trans o12 o23⟩

instance : IsTotal Book fun b1 b2 => bookLeB b1 b2 = true := ⟨bookLeB_total⟩

instance : IsTrans Book fun b1 b2 => bookLeB b1 b2 = true := ⟨fun _ _ _ => bookLeB_trans⟩

instance : IsTotal Author fun a1 a2 => authorLeB a1 a2 = true := ⟨authorLeB_total⟩

instance : IsTrans Author fun a1 a2 => authorLeB a1 a2 = true := ⟨fun _ _ _ => authorLeB_trans⟩

instance : IsTotal BookInstance fun i1 i2 => instLeB i1 i2 = true :=
  ⟨fun i1 i2 => optLeB_total i1.due_back i2.due_back⟩

instance : IsTrans BookInstance fun i1 i2 => instLeB i1 i2 = true :=
  ⟨fun _ _ _ => optLeB_trans⟩

/-- An `is_overdue` fixture: a copy on loan, due on day 100. -/
def instC1a : BookInstance :=
  { id := ⟨0, Nat.two_pow_pos 128⟩, book := none, imprint := "imp",
    due_back := some 100, borrower := none, status := "o" }

/-- An `is_overdue` fixture: no due date recorded. -/
def instC1b : BookInstance :=
  { id := ⟨1, Nat.one_lt_two_pow (by decide)⟩, book := none, imprint := "imp",
    due_back := none, borrower := none, status := "a" }

/-- C1: `is_overdue` is true exactly when `due_back` is present and the
current date is strictly later than it; it is false when `due_back` is
absent and false when `due_back` equals the current date (and it is a
Boolean by type). -/
theorem C1_is_overdue_iff (today : Date) (i : BookInstance) :
    (is_overdue today i = true ↔ ∃ d, i.due_back = some d ∧ d < today) ∧
    (i.due_back = none → is_overdue today i = false) ∧
    (i.due_back = some today → is_overdue today i = false) := by
  refine ⟨?_, ?_, ?_⟩
  · cases hd : i.due_back with
    | none => simp [is_overdue, hd]
    | some d => simp [is_overdue, hd]
  · intro hd; simp [is_overdue, hd]
  · intro hd; simp [is_overdue, hd]

/-- Concrete instantiation of C1: due day 100 is overdue on day 200,
a missing due date is never overdue, and a copy due today is not
overdue. -/
theorem C1_witness :
    is_overdue 200 instC1a = true ∧
    is_overdue 200 instC1b = false ∧
    is_overdue 100 instC1a = false :=
  ⟨(C1_is_overdue_iff 200 instC1a).1.mpr ⟨100, rfl, by decide⟩,
   (C1_is_overdue_iff 200 instC1b).2.1 rfl,
   (C1_is_overdue_iff 100 instC1a).2.2 rfl⟩

/-- A Book with four genres attached, in relation order. -/
def bookC4 : Book :=
  { id := 5, title := "T", author := none, summary := "S",
    isbn := "1234567890123", genre := [1, 2, 3, 4], language := none }

/-- A store holding the four genres of the C4 example and `bookC4`. -/
def storeC4 : Store :=
  { nextId := 6, uuidSupply := ⟨0, Nat.two_pow_pos 128⟩,
    genres := [⟨1, "Fantasy"⟩, ⟨2, "Horror"⟩, ⟨3, "Drama"⟩, ⟨4, "Romance"⟩],
    languages := [], authors := [], books := [bookC4], instances := [] }

/-- C4: `display_genre` joins the names of the first three genres of
the relation, in relation order, with comma-space, silently dropping the
rest; on the four-genre example it yields exactly the first three
names. -/
theorem C4_display_genre_take3 :
    (∀ (s : Store) (b : Book),
        display_genre s b =
          String.intercalate (", ")
            (((b.genre.filterMap (lookupGenre s)).map Genre.name).take 3)) ∧
    display_genre storeC4 bookC4 = "Fantasy, Horror, Drama" ∧
    bookC4.genre.length = 4 := by
  refine ⟨?_, by decide, by decide⟩
  intro s b
  rw [display_genre, List.map_take]

/-- A BookInstance whose nullable `book` reference is absent. -/
def instC7 : BookInstance :=
  { id := ⟨7, by decide⟩, book := none, imprint := "imp",
    due_back := none, borrower := none, status := "a" }

/-- C7 as stated is false: for a BookInstance whose `book` reference is
none, `__str__` dereferences `self.book.title` and fails, so no string
"id (book title)" is produced. -/
theorem C7_counterexample :
    instC7.book = none ∧ BookInstance.str emptyStore instC7 = none := ⟨rfl, rfl⟩

/-- C7 amended: text representations are as claimed for Genre,
Language, Author and Book; a BookInstance whose `book` reference
resolves is rendered "id (book title)", while one with an absent `book`
reference produces no string. -/
theorem C7_str_representations (g : Genre) (l : Language) (a : Author) (s : Store)
    (b : Book) (i : BookInstance) (bid : Nat) (hb : i.book = some bid)
    (hres : lookupBook s bid = some b) :
    Genre.str g = g.name ∧ Language.str l = l.name ∧
    Author.str a = a.last_name ++ " (" ++ a.first_name ++ ")" ∧
    Book.str b = b.title ∧
    BookInstance.str s i = some (toString i.id.val ++ " (" ++ b.title ++ ")") ∧
    (∀ i2 : BookInstance, i2.book = none → BookInstance.str s i2 = none) := by
  refine ⟨rfl, rfl, rfl, rfl, ?_, ?_⟩
  · simp [BookInstance.str, hb, hres]
  · intro i2 h2
    simp [BookInstance.str, h2]

/-- The Book fixture of the C7 witness. -/
def bookC7 : Book :=
  { id := 5, title := "T", author := none, summary := "S",
    isbn := "1234567890123", genre := [], language := none }

/-- A store holding `bookC7`. -/
def storeC7 : Store :=
  { nextId := 6, uuidSupply := ⟨0, Nat.two_pow_pos 128⟩, genres := [],
    languages := [], authors := [], books := [bookC7], instances := [] }

/-- A BookInstance referencing `bookC7`. -/
def instC7b : BookInstance :=
  { id := ⟨9, by decide⟩, book := some 5, imprint := "imp",
    due_back := none, borrower := none, status := "a" }

/-- Concrete instantiation of C7 (amended): a resolvable instance is
rendered "9 (T)", an instance without a book renders no string. -/
theorem C7_witness :
    BookInstance.str storeC7 instC7b = some ("9 (T)") ∧
    BookInstance.str storeC7 instC7 = none :=
  ⟨(C7_str_representations ⟨1, "G"⟩ ⟨2, "L"⟩ ⟨3, "F", "L", none, none⟩ storeC7 bookC7
      instC7b 5 rfl rfl).2.2.2.2.1,
   (C7_str_representations ⟨1, "G"⟩ ⟨2, "L"⟩ ⟨3, "F", "L", none, none⟩ storeC7 bookC7
      instC7b 5 rfl rfl).2.2.2.2.2 instC7 rfl⟩

/-- BookInstance write arguments leaving `status` to its default. -/
def argsC3 : InstanceArgs :=
  { book := none, imprint := "imp", due_back := none, borrower := none, status := none }

/-- C3 as stated is false: a BookInstance assembled without an explicit
status receives the declared default `'d'`, which is neither one of the
four `LOAN_STATUS` codes nor blank. -/
theorem C3_counterexample :
    (argsC3.build ⟨0, Nat.two_pow_pos 128⟩).status = "d" ∧
    statusOk (argsC3.build ⟨0, Nat.two_pow_pos 128⟩).status = false ∧
    statusDefault ≠ "" ∧
    (LOAN_STATUS.map Prod.fst).contains statusDefault = false :=
  ⟨rfl, rfl, by decide, rfl⟩

/-- C3 amended: the status check accepts exactly the four enumerated
codes or blank, and every stored BookInstance passes it; but the
declared default `'d'` lies outside that set, so a create that leaves
`status` to its default is rejected by validation. -/
theorem C3_status_choices :
    (∀ st : String,
        statusOk st = true ↔ (st = "m" ∨ st = "o" ∨ st = "a" ∨ st = "r" ∨ st = "")) ∧
    statusDefault = "d" ∧ statusOk statusDefault = false ∧
    (∀ (s : Store) (a : InstanceArgs) (uid : Option UUID), a.status = none →
        applyOp s (.createInstance uid a) = none) ∧
    (∀ s : Store, Reachable s → ∀ i ∈ s.instances, statusOk i.status = true) := by
  refine ⟨?_, rfl, rfl, ?_, ?_⟩
  · intro st
    simp [statusOk, LOAN_STATUS, List.contains, List.elem_eq_mem, or_assoc]
  · intro s a uid ha
    have hio : instanceFieldsOk s (a.build (uid.getD s.uuidSupply)) = false := by
      simp [instanceFieldsOk, InstanceArgs.build, ha, statusOk, statusDefault, LOAN_STATUS]
    simp [applyOp, hio]
  · intro s hs
    exact (inv_reachable hs).2.2.2.2

/-- Concrete instantiation of C3 (amended): the code "m" passes the
check, and creating an instance without a status fails. -/
theorem C3_witness :
    statusOk ("m") = true ∧
    applyOp emptyStore (.createInstance none argsC3) = none :=
  ⟨(C3_status_choices.1 ("m")).mpr (Or.inl rfl),
   C3_status_choices.2.2.2.1 emptyStore argsC3 none rfl⟩

/-- A write creating a Book whose ISBN has only 10 characters. -/
def opsC2 : List Op :=
  [.createBook { title := "War", author := none, summary := "About war",
                 isbn := "0123456789", genre := [], language := none }]

/-- C2 as stated is false: the code enforces only a maximum ISBN length
of 13 (`max_length=13`), so a successful write sequence can store a
Book whose ISBN has length 10, not exactly 13. -/
theorem C2_counterexample :
    (runOps emptyStore opsC2).isSome = true ∧
    ((runOps emptyStore opsC2).getD emptyStore).books.map (fun b => b.isbn.length)
      = [10] :=
  ⟨rfl, rfl⟩

/-- C2 amended: every stored ISBN is non-blank and at most 13
characters; ISBNs are pairwise distinct after any successful write
sequence; an over-long ISBN or a duplicate ISBN makes the create or
update fail. -/
theorem C2_isbn_unique (s : Store) (h : Reachable s) :
    (∀ b ∈ s.books, b.isbn ≠ "" ∧ b.isbn.length ≤ 13) ∧
    s.books.Pairwise (fun b1 b2 => b1.isbn ≠ b2.isbn) ∧
    (∀ a : BookArgs, 13 < a.isbn.length →
        applyOp s (.createBook a) = none ∧
        ∀ bid, applyOp s (.updateBook bid a) = none) ∧
    (∀ a : BookArgs, (∃ b ∈ s.books, b.isbn = a.isbn) →
        applyOp s (.createBook a) = none) ∧
    (∀ (a : BookArgs) (bid : Nat), (∃ b ∈ s.books, b.id ≠ bid ∧ b.isbn = a.isbn) →
        applyOp s (.updateBook bid a) = none) := by
  obtain ⟨_, _, hpis, hlen, _⟩ := inv_reachable h
  refine ⟨fun b hb => ⟨(hlen b hb).1, (hlen b hb).2.1⟩, hpis, ?_, ?_, ?_⟩
  · intro a hlong
    have hfo : ∀ bid, bookFieldsOk s (a.toBook bid) = false := by
      intro bid
      simp [bookFieldsOk, BookArgs.toBook, Nat.not_le.2 hlong]
    exact ⟨by simp [applyOp, hfo], fun bid => by simp [applyOp, hfo]⟩
  · intro a hex
    have hall : (s.books.all fun b2 => b2.isbn != (a.toBook s.nextId).isbn) = false := by
      rw [Bool.eq_false_iff]
      intro hall
      rw [List.all_eq_true] at hall
      rcases hex with ⟨b, hb, he⟩
      have := hall b hb
      rw [bne_iff_ne] at this
      exact this (by simpa [BookArgs.toBook] using he)
    simp [applyOp, hall]
  · intro a bid hex
    have hall : (s.books.all fun b2 =>
        b2.id == bid || b2.isbn != (a.toBook bid).isbn) = false := by
      rw [Bool.eq_false_iff]
      intro hall
      rw [List.all_eq_true] at hall
      rcases hex with ⟨b, hb, hne, he⟩
      have := hall b hb
      rw [Bool.or_eq_true, beq_iff_eq, bne_iff_ne] at this
      rcases this with h1 | h1
      · exact hne h1
      · exact h1 (by simpa [BookArgs.toBook] using he)
    simp [applyOp, hall]

/-- A write creating one Book with a full 13-character ISBN. -/
def opsC2w : List Op :=
  [.createBook { title := "T", author := none, summary := "S",
                 isbn := "9780000000000", genre := [], language := none }]

/-- The store reached by `opsC2w`. -/
def storeC2w : Store := (runOps emptyStore opsC2w).getD emptyStore

/-- Write arguments duplicating the ISBN stored in `storeC2w`. -/
def argsC2dup : BookArgs :=
  { title := "U", author := none, summary := "S",
    isbn := "9780000000000", genre := [], language := none }

/-- Concrete instantiation of C2 (amended): the reached store has
pairwise distinct ISBNs and creating a duplicate-ISBN Book fails. -/
theorem C2_witness :
    storeC2w.books.Pairwise (fun b1 b2 => b1.isbn ≠ b2.isbn) ∧
    applyOp storeC2w (.createBook argsC2dup) = none :=
  ⟨(C2_isbn_unique storeC2w ⟨opsC2w, rfl⟩).2.1,
   (C2_isbn_unique storeC2w ⟨opsC2w, rfl⟩).2.2.2.1 argsC2dup
     ⟨{ id := 1, title := "T", author := none, summary := "S",
        isbn := "9780000000000", genre := [], language := none },
      by decide, rfl⟩⟩

/-- A summary string of 1001 characters. -/
def longSummary : String := String.mk (List.replicate 1001 'a')

/-- Write arguments carrying the over-long summary. -/
def argsC10 : BookArgs :=
  { title := "T", author := none, summary := longSummary,
    isbn := "9780000000001", genre := [], language := none }

/-- C10: every stored Book summary is at most 1000 characters, and a
create or update whose summary is longer fails validation. -/
theorem C10_summary_bound (s : Store) (h : Reachable s) :
    (∀ b ∈ s.books, b.summary.length ≤ 1000) ∧
    (∀ a : BookArgs, 1000 < a.summary.length →
        applyOp s (.createBook a) = none ∧
        ∀ bid, applyOp s (.updateBook bid a) = none) := by
  obtain ⟨_, _, _, hlen, _⟩ := inv_reachable h
  refine ⟨fun b hb => (hlen b hb).2.2, ?_⟩
  intro a hlong
  have hfo : ∀ bid, bookFieldsOk s (a.toBook bid) = false := by
    intro bid
    simp [bookFieldsOk, BookArgs.toBook, Nat.not_le.2 hlong]
  exact ⟨by simp [applyOp, hfo], fun bid => by simp [applyOp, hfo]⟩

/-- Concrete instantiation of C10: in the store reached by `opsC2w`,
every summary is short and creating a Book with a 1001-character
summary fails. -/
theorem C10_witness :
    applyOp storeC2w (.createBook argsC10) = none :=
  ((C10_summary_bound storeC2w ⟨opsC2w, rfl⟩).2 argsC10
    (by simp only [argsC10, longSummary, String.length, List.length_replicate]
        exact Nat.lt_succ_self 1000)).1

/-- C5: deleting a Book referenced by some BookInstance is rejected and
the attempt leaves the store unchanged; with no referencing instance
the delete succeeds, removes exactly that Book, keeps every other Book
and touches no BookInstance. -/
theorem C5_deleteBook_restrict (s : Store) (bid : Nat) :
    ((∃ i ∈ s.instances, i.book = some bid) →
        applyOp s (.deleteBook bid) = none ∧ tryOp s (.deleteBook bid) = s) ∧
    ((∀ i ∈ s.instances, i.book ≠ some bid) →
        applyOp s (.deleteBook bid)
            = some { s with books := s.books.filter fun b => b.id != bid } ∧
        (tryOp s (.deleteBook bid)).instances = s.instances ∧
        (∀ b ∈ (tryOp s (.deleteBook bid)).books, b.id ≠ bid) ∧
        (∀ b ∈ s.books, b.id ≠ bid → b ∈ (tryOp s (.deleteBook bid)).books)) := by
  constructor
  · rintro ⟨i, hi, he⟩
    have hc : (s.instances.any fun j => j.book == some bid) = true := by
      rw [List.any_eq_true]
      exact ⟨i, hi, by simp [he]⟩
    exact ⟨by simp [applyOp, hc], by simp [tryOp, applyOp, hc]⟩
  · intro hno
    have hc : (s.instances.any fun j => j.book == some bid) = false := by
      rw [List.any_eq_false]
      intro i hi
      simp [hno i hi]
    refine ⟨by simp [applyOp, hc], by simp [tryOp, applyOp, hc], ?_, ?_⟩
    · intro b hb
      have hmem : b ∈ s.books ∧ ¬ b.id = bid := by simpa [tryOp, applyOp, hc] using hb
      exact hmem.2
    · intro b hb hne
      have : b ∈ s.books.filter fun b2 => b2.id != bid :=
        List.mem_filter.2 ⟨hb, by simpa using hne⟩
      simpa [tryOp, applyOp, hc] using this

/-- The Book fixture referenced by an instance in `storeC5`. -/
def bookC5 : Book :=
  { id := 1, title := "T", author := none, summary := "S",
    isbn := "1111111111111", genre := [], language := none }

/-- The BookInstance referencing `bookC5`. -/
def instC5 : BookInstance :=
  { id := ⟨3, by decide⟩, book := some 1, imprint := "imp",
    due_back := none, borrower := none, status := "o" }

/-- A store in which `bookC5` is referenced by `instC5`. -/
def storeC5 : Store :=
  { nextId := 2, uuidSupply := ⟨0, Nat.two_pow_pos 128⟩, genres := [],
    languages := [], authors := [], books := [bookC5], instances := [instC5] }

/-- The same store with the referencing instance removed. -/
def storeC5b : Store := { storeC5 with instances := [] }

/-- Concrete instantiation of C5: deleting the referenced Book fails
and changes nothing; after removing the instance the delete succeeds. -/
theorem C5_witness :
    applyOp storeC5 (.deleteBook 1) = none ∧
    tryOp storeC5 (.deleteBook 1) = storeC5 ∧
    applyOp storeC5b (.deleteBook 1)
      = some { storeC5b with books := storeC5b.books.filter fun b => b.id != 1 } :=
  ⟨((C5_deleteBook_restrict storeC5 1).1 ⟨instC5, List.mem_singleton.2 rfl, rfl⟩).1,
   ((C5_deleteBook_restrict storeC5 1).1 ⟨instC5, List.mem_singleton.2 rfl, rfl⟩).2,
   ((C5_deleteBook_restrict storeC5b 1).2 (by intro i hi; simp [storeC5b] at hi)).1⟩

/-- C6: deleting an Author, a Language or a borrowing user account
always succeeds; every Book whose `author` (resp. `language`)
referenced the deleted record and every BookInstance whose `borrower`
referenced the deleted account has that reference cleared to none while
keeping all other fields, and no dependent record is removed. -/
theorem C6_delete_set_null (s : Store) (aid lid uid : Nat) :
    ((applyOp s (.deleteAuthor aid)).isSome = true ∧
      (∀ a2 ∈ (tryOp s (.deleteAuthor aid)).authors, a2.id ≠ aid) ∧
      (tryOp s (.deleteAuthor aid)).books.length = s.books.length ∧
      (∀ b ∈ s.books, ∃ b2 ∈ (tryOp s (.deleteAuthor aid)).books,
          b2.id = b.id ∧ b2.title = b.title ∧ b2.summary = b.summary ∧
          b2.isbn = b.isbn ∧ b2.genre = b.genre ∧ b2.language = b.language ∧
          b2.author = if b.author = some aid then none else b.author)) ∧
    ((applyOp s (.deleteLanguage lid)).isSome = true ∧
      (∀ l2 ∈ (tryOp s (.deleteLanguage lid)).languages, l2.id ≠ lid) ∧
      (tryOp s (.deleteLanguage lid)).books.length = s.books.length ∧
      (∀ b ∈ s.books, ∃ b2 ∈ (tryOp s (.deleteLanguage lid)).books,
          b2.id = b.id ∧ b2.title = b.title ∧ b2.summary = b.summary ∧
          b2.isbn = b.isbn ∧ b2.genre = b.genre ∧ b2.author = b.author ∧
          b2.language = if b.language = some lid then none else b.language)) ∧
    ((applyOp s (.deleteUser uid)).isSome = true ∧
      (tryOp s (.deleteUser uid)).instances.length = s.instances.length ∧
      (∀ i ∈ s.instances, ∃ i2 ∈ (tryOp s (.deleteUser uid)).instances,
          i2.id = i.id ∧ i2.book = i.book ∧ i2.imprint = i.imprint ∧
          i2.due_back = i.due_back ∧ i2.status = i.status ∧
          i2.borrower = if i.borrower = some uid then none else i.borrower)) := by
  refine ⟨⟨rfl, ?_, ?_, ?_⟩, ⟨rfl, ?_, ?_, ?_⟩, ⟨rfl, ?_, ?_⟩⟩
  · intro a2 ha2
    have hmem : a2 ∈ s.authors ∧ ¬ a2.id = aid := by simpa [tryOp, applyOp] using ha2
    exact hmem.2
  · simp [tryOp, applyOp]
  · intro b hb
    refine ⟨if b.author == some aid then { b with author := none } else b, ?_, ?_⟩
    · simp only [tryOp, applyOp, Option.getD_some]
      exact List.mem_map_of_mem _ hb
    · by_cases hba : b.author = some aid
      · simp [hba]
      · simp [hba]
  · intro l2 hl2
    have hmem : l2 ∈ s.languages ∧ ¬ l2.id = lid := by simpa [tryOp, applyOp] using hl2
    exact hmem.2
  · simp [tryOp, applyOp]
  · intro b hb
    refine ⟨if b.language == some lid then { b with language := none } else b, ?_, ?_⟩
    · simp only [tryOp, applyOp, Option.getD_some]
      exact List.mem_map_of_mem _ hb
    · by_cases hbl : b.language = some lid
      · simp [hbl]
      · simp [hbl]
  · simp [tryOp, applyOp]
  · intro i hi
    refine ⟨if i.borrower == some uid then { i with borrower := none } else i, ?_, ?_⟩
    · simp only [tryOp, applyOp, Option.getD_some]
      exact List.mem_map_of_mem _ hi
    · by_cases hib : i.borrower = some uid
      · simp [hib]
      · simp [hib]

/-- A Book referencing both the Author and the Language of `storeC6`. -/
def bookC6 : Book :=
  { id := 3, title := "T", author := some 1, summary := "S",
    isbn := "3333333333333", genre := [], language := some 2 }

/-- A BookInstance borrowed by user account 7. -/
def instC6 : BookInstance :=
  { id := ⟨4, by decide⟩, book := some 3, imprint := "imp",
    due_back := none, borrower := some 7, status := "o" }

/-- A store with one Author, one Language, one referencing Book and one
borrowed BookInstance. -/
def storeC6 : Store :=
  { nextId := 4, uuidSupply := ⟨0, Nat.two_pow_pos 128⟩, genres := [],
    languages := [⟨2, "English"⟩], authors := [⟨1, "F", "L", none, none⟩],
    books := [bookC6], instances := [instC6] }

/-- Concrete instantiation of C6: all three deletes succeed on
`storeC6`, and after deleting the Author the surviving Book's author
reference is none. -/
theorem C6_witness :
    (applyOp storeC6 (.deleteAuthor 1)).isSome = true ∧
    (applyOp storeC6 (.deleteLanguage 2)).isSome = true ∧
    (applyOp storeC6 (.deleteUser 7)).isSome = true ∧
    (tryOp storeC6 (.deleteAuthor 1)).books.map Book.author = [none] :=
  ⟨(C6_delete_set_null storeC6 1 2 7).1.1,
   (C6_delete_set_null storeC6 1 2 7).2.1.1,
   (C6_delete_set_null storeC6 1 2 7).2.2.1,
   by decide⟩

lemma uuid_add_one_ne (x : UUID) : x ≠ x + 1 := by
  intro h
  have h2 := congrArg Fin.val h
  rw [Fin.val_add] at h2
  have h1 : (1 : UUID).val = 1 := rfl
  rw [h1] at h2
  have hx := x.isLt
  have hN1 : 1 < 2 ^ 128 := Nat.one_lt_two_pow (by decide)
  rcases Nat.lt_or_ge (x.val + 1) (2 ^ 128) with hlt | hge
  · rw [Nat.mod_eq_of_lt hlt] at h2
    omega
  · have he : x.val + 1 = 2 ^ 128 := by omega
    rw [he, Nat.mod_self] at h2
    omega

lemma map_id_of_pointwise {α β} (f : α → α) (g : α → β) (h : ∀ x, g (f x) = g x) :
    ∀ l : List α, (l.map f).map g = l.map g
  | [] => rfl
  | x :: xs => by simp [h x, map_id_of_pointwise f g h xs]

/-- C8: creating two BookInstances without explicit identifiers draws
two distinct fresh values from the 128-bit identifier supply and
assigns them at creation; no later write rewrites an instance
identifier (the only operation that rewrites stored instances,
`deleteUser`, keeps every identifier). -/
theorem C8_uuid_generation (s s1 s2 : Store) (a1 a2 : InstanceArgs)
    (h1 : applyOp s (.createInstance none a1) = some s1)
    (h2 : applyOp s1 (.createInstance none a2) = some s2) :
    s1.instances = s.instances ++ [a1.build s.uuidSupply] ∧
    s2.instances = s.instances ++ [a1.build s.uuidSupply, a2.build s1.uuidSupply] ∧
    (a1.build s.uuidSupply).id ≠ (a2.build s1.uuidSupply).id ∧
    (a1.build s.uuidSupply).id.val < 2 ^ 128 ∧
    (a2.build s1.uuidSupply).id.val < 2 ^ 128 ∧
    (∀ uid : Nat, (tryOp s2 (.deleteUser uid)).instances.map BookInstance.id
        = s2.instances.map BookInstance.id) := by
  simp only [applyOp, Option.isNone_none, Option.getD_none, eq_self_iff_true,
    if_true] at h1 h2
  split at h1
  case isFalse => exact absurd h1 (by simp)
  case isTrue =>
    obtain rfl : _ = s1 := Option.some.inj h1
    split at h2
    case isFalse => exact absurd h2 (by simp)
    case isTrue =>
      obtain rfl : _ = s2 := Option.some.inj h2
      refine ⟨rfl, by simp, ?_, Fin.isLt _, Fin.isLt _, ?_⟩
      · show s.uuidSupply ≠ s.uuidSupply + 1
        exact uuid_add_one_ne s.uuidSupply
      · intro uid
        simp only [tryOp, applyOp, Option.getD_some]
        exact map_id_of_pointwise _ _
          (fun i => by split <;> rfl) _

/-- BookInstance write arguments with a valid status and no book. -/
def argsC8 : InstanceArgs :=
  { book := none, imprint := "imp", due_back := none, borrower := none,
    status := some ("a") }

/-- The store after one id-less create on the empty store. -/
def storeC8a : Store := tryOp emptyStore (.createInstance none argsC8)

/-- The store after a second id-less create. -/
def storeC8b : Store := tryOp storeC8a (.createInstance none argsC8)

/-- Concrete instantiation of C8: two id-less creates from the empty
store yield two instances whose generated identifiers differ. -/
theorem C8_witness :
    storeC8b.instances
      = emptyStore.instances
          ++ [argsC8.build emptyStore.uuidSupply, argsC8.build storeC8a.uuidSupply] ∧
    (argsC8.build emptyStore.uuidSupply).id ≠ (argsC8.build storeC8a.uuidSupply).id :=
  ⟨(C8_uuid_generation emptyStore storeC8a storeC8b argsC8 argsC8 rfl rfl).2.1,
   (C8_uuid_generation emptyStore storeC8a storeC8b argsC8 argsC8 rfl rfl).2.2.1⟩

/-- The later-titled Book of the C9 example, stored first. -/
def bookC9a : Book :=
  { id := 1, title := "Zoo", author := some 1, summary := "S",
    isbn := "1111111111111", genre := [], language := none }

/-- The earlier-titled Book of the C9 example, same author. -/
def bookC9b : Book :=
  { id := 2, title := "Apple", author := some 1, summary := "S",
    isbn := "2222222222222", genre := [], language := none }

/-- A store holding the two same-author example Books in stored order
["Zoo", "Apple"]. -/
def storeC9 : Store :=
  { nextId := 3, uuidSupply := ⟨0, Nat.two_pow_pos 128⟩, genres := [],
    languages := [], authors := [⟨1, "F", "L", none, none⟩],
    books := [bookC9a, bookC9b], instances := [] }

/-- C9: listing queries return exactly the stored Books sorted
ascending by title then author, Authors sorted by last name then first
name, and BookInstances sorted by due_back; the same-author example
["Zoo", "Apple"] is returned as ["Apple", "Zoo"]. -/
theorem C9_default_ordering :
    (∀ s : Store, (listBooks s).Sorted (fun b1 b2 => bookLeB b1 b2 = true) ∧
        (listBooks s).Perm s.books) ∧
    (∀ s : Store, (listAuthors s).Sorted (fun a1 a2 => authorLeB a1 a2 = true) ∧
        (listAuthors s).Perm s.authors) ∧
    (∀ s : Store, (listInstances s).Sorted (fun i1 i2 => instLeB i1 i2 = true) ∧
        (listInstances s).Perm s.instances) ∧
    (listBooks storeC9).map Book.title = ["Apple", "Zoo"] :=
  ⟨fun _ => ⟨List.sorted_insertionSort _ _, List.perm_insertionSort _ _⟩,
   fun _ => ⟨List.sorted_insertionSort _ _, List.perm_insertionSort _ _⟩,
   fun _ => ⟨List.sorted_insertionSort _ _, List.perm_insertionSort _ _⟩,
   by decide⟩

end Catalog
